import Mathlib

/-!
Shallow embedding of the LXC lifecycle driver (src/src/lxc_driver.c).

Pure control flow is translated directly; syscall outcomes (malloc, clone,
fork, kill, waitpid, pty setup calls) are supplied by explicit environment
records, and the set of open file descriptors is threaded as explicit state.
Two helpers that live in the lxc_conf collaborator (not present under src/)
are modelled from the spec and marked as such in their doc comments.
-/

namespace Lxc

/-- Domain lifecycle states used by the driver: VIR_DOMAIN_RUNNING,
VIR_DOMAIN_SHUTDOWN (the spec's SHUTTING_DOWN) and VIR_DOMAIN_SHUTOFF
(the spec's OFF / SHUT_OFF). -/
inductive VmState where
  | noState
  | running
  | shutdown
  | shutoff
  deriving DecidableEq, Repr

/-- lxc_vm_def_t: the persisted definition of a domain.  Fields not touched
by the modelled operations (uuid, maxMemory, root/mount data) are omitted. -/
structure VmDef where
  name : String
  tty : String
  id : Int
  deriving DecidableEq, Repr

/-- lxc_vm_t: the in-memory domain record. -/
structure Vm where
  vmDef : VmDef
  state : VmState
  parentTty : Int
  containerTtyFd : Int
  containerTty : Option String
  pid : Int
  deriving DecidableEq, Repr

/-- lxc_driver_t: the registry (list of records plus the two counters). -/
structure Driver where
  vms : List Vm
  nactivevms : Int
  ninactivevms : Int
  deriving DecidableEq, Repr

/-- STRNEQ from internal.h: string inequality. -/
def STRNEQ (a b : String) : Bool := a != b

/-- Modelled from the spec: lxcIsActiveVM lives in the missing lxc_conf
header; the spec says inactive records have runtime id −1 and
"id >= 0 iff active", so a record is active iff its id is not −1. -/
def lxcIsActiveVM (vm : Vm) : Bool := vm.vmDef.id != -1

/-- Predicate used when locating a record by runtime id. -/
def vmHasRuntimeId (id : Int) (vm : Vm) : Bool :=
  lxcIsActiveVM vm && vm.vmDef.id == id

/-- Modelled from the spec: lxcFindVMByID lives in the missing lxc_conf
source; per spec section 4.6, lookup by id searches active records only. -/
def lxcFindVMByID (driver : Driver) (id : Int) : Option Vm :=
  driver.vms.find? (vmHasRuntimeId id)

/-- Replace the first record matching p by f applied to it; this renders the
in-place mutation the C code performs through the pointer found by lookup. -/
def updateFirst (p : Vm → Bool) (f : Vm → Vm) : List Vm → List Vm
  | [] => []
  | vm :: rest => if p vm then f vm :: rest else vm :: updateFirst p f rest

/-! ### Connection gate: lxcOpen (lines 120-151) -/

/-- virDrvOpenStatus: the three outcomes of a driver open callback. -/
inductive OpenStatus where
  | success
  | declined
  | error
  deriving DecidableEq, Repr

/-- xmlURI, reduced to the one component lxcOpen inspects. -/
structure Uri where
  scheme : Option String
  deriving DecidableEq, Repr

/-- lxcOpen: decline unless the caller is root, the singleton exists, and
the URI has scheme "lxc"; driverExists renders lxc_driver != NULL. -/
def lxcOpen (uid : Nat) (driverExists : Bool) (uri : Option Uri) : OpenStatus :=
  if uid ≠ 0 then OpenStatus.declined
  else if driverExists = false then OpenStatus.declined
  else
    match uri with
    | none => OpenStatus.declined
    | some u =>
      match u.scheme with
      | none => OpenStatus.declined
      | some s =>
        if STRNEQ s "lxc" then OpenStatus.declined
        else OpenStatus.success

/-! ### Capability probe: lxcCheckContainerSupport (77-108), lxcProbe (110-118) -/

/-- Outcome of the probing clone() call: success, failure with EINVAL, or
failure with some other errno. -/
inductive CloneProbeRes where
  | ok
  | einval
  | errOther
  deriving DecidableEq, Repr

/-- Result of lxcCheckContainerSupport, recording whether the clone
primitive was ever invoked. -/
structure CheckSupportOut where
  rc : Int
  cloneInvoked : Bool
  deriving DecidableEq, Repr

/-- lxcCheckContainerSupport: a failed stack allocation reports unsupported
without calling clone; clone failing with EINVAL reports unsupported; any
other outcome reports supported (the child, if any, is reaped). -/
def lxcCheckContainerSupport (stackOk : Bool) (cloneRes : CloneProbeRes) :
    CheckSupportOut :=
  if stackOk = false then ⟨-1, false⟩
  else
    match cloneRes with
    | CloneProbeRes.einval => ⟨-1, true⟩
    | _ => ⟨0, true⟩

/-- lxcProbe: returns the canonical URI only when the capability check
reports success. -/
def lxcProbe (stackOk : Bool) (cloneRes : CloneProbeRes) : Option String :=
  if (lxcCheckContainerSupport stackOk cloneRes).rc = 0 then some "lxc:///"
  else none

/-! ### Startup: lxcStartup (922-955) -/

/-- Environment for lxcStartup: caller uid and outcomes of the allocation,
the capability probe, and the two loader collaborators.  loadedDriver is
modelled from the spec: the definition store loads the registry contents. -/
structure StartupEnv where
  uid : Nat
  callocOk : Bool
  capStackOk : Bool
  capCloneRes : CloneProbeRes
  loadConfigOk : Bool
  loadInfoOk : Bool
  loadedDriver : Driver
  deriving DecidableEq, Repr

/-- The freshly calloc-ed driver: zeroed registry. -/
def emptyDriver : Driver := ⟨[], 0, 0⟩

/-- lxcStartup: returns the rc together with the value of the lxc_driver
global after the call.  Note the source installs the driver before the
capability check and, on that check failing, returns without the
lxcShutdown() cleanup its later failure paths perform, so the global stays
set on that path. -/
def lxcStartup (env : StartupEnv) : Int × Option Driver :=
  if env.uid ≠ 0 then (-1, none)
  else if env.callocOk = false then (-1, none)
  else if (lxcCheckContainerSupport env.capStackOk env.capCloneRes).rc ≠ 0 then
    (-1, some emptyDriver)
  else if env.loadConfigOk = false then (-1, none)
  else if env.loadInfoOk = false then (-1, none)
  else (0, some env.loadedDriver)

/-! ### Listing: lxcListDomains (219-233) -/

/-- The loop of lxcListDomains: walk the records while fewer than nids ids
have been written; active records contribute their id. -/
def lxcListDomainsLoop : List Vm → Nat → List Int
  | [], _ => []
  | vm :: rest, n =>
    if 0 < n then
      if lxcIsActiveVM vm then vm.vmDef.id :: lxcListDomainsLoop rest (n - 1)
      else lxcListDomainsLoop rest n
    else []

/-- lxcListDomains: the ids written into the caller's array, in order; the
C return value is the length of this list. -/
def lxcListDomains (driver : Driver) (nids : Nat) : List Int :=
  lxcListDomainsLoop driver.vms nids

/-- The listing the claim describes, written from the spec's words: the ids
of records whose state is RUNNING, truncated at n.  Used only to compare
against lxcListDomains. -/
def specListRunningIds (vms : List Vm) (n : Nat) : List Int :=
  ((vms.filter (fun vm => vm.state == VmState.running)).map
    (fun vm => vm.vmDef.id)).take n

/-! ### The start path: lxcSetupTtyTunnel (477-535), lxcSetupContainerTty
(548-593), lxcTtyForward (605-675), lxcStartContainer (393-429),
lxcVmStart (687-730) -/

/-- Explicit resource state: the multiset of file descriptors the host
process currently has open, as a list. -/
structure World where
  openFds : List Int
  deriving DecidableEq, Repr

/-- A successful open() registers its descriptor. -/
def openFdW (fd : Int) (w : World) : World :=
  { w with openFds := fd :: w.openFds }

/-- close() removes one occurrence; closing a descriptor that is not open
(for example close(-1)) is a harmless failed syscall and changes nothing. -/
def closeFdW (fd : Int) (w : World) : World :=
  { w with openFds := w.openFds.erase fd }

/-- Environment for the start path: results of every syscall lxcVmStart and
its helpers perform. -/
structure StartEnv where
  ptyOpenRes : Int
  grantptOk : Bool
  unlockptOk : Bool
  ptsRes : Option String
  rawModeOk : Bool
  posixOpenptRes : Int
  containerUnlockOk : Bool
  ptsnameROk : Bool
  containerPtsName : String
  forkRes : Int
  stackMallocOk : Bool
  cloneRes : Int
  deriving DecidableEq, Repr

/-- lxcPutTtyInRawMode: tcgetattr/cfmakeraw/tcsetattr, collapsed to the
environment's verdict. -/
def lxcPutTtyInRawMode (env : StartEnv) : Int :=
  if env.rawModeOk then 0 else -1

/-- Result of lxcSetupTtyTunnel: rc, the value written through the ttyDev
out-parameter, the (possibly updated) definition, and the fd state. -/
structure TtyTunnelOut where
  rc : Int
  ttyDev : Int
  vmDef : VmDef
  world : World
  deriving DecidableEq, Repr

/-- Body of lxcSetupTtyTunnel up to the setup_complete label. -/
def lxcSetupTtyTunnelBody (env : StartEnv) (vmDef : VmDef) (w : World) :
    TtyTunnelOut :=
  if 0 < vmDef.tty.length then
    let ttyDev := env.ptyOpenRes
    if ttyDev < 0 then ⟨-1, ttyDev, vmDef, w⟩
    else
      let w := openFdW ttyDev w
      if env.grantptOk = false then ⟨-1, ttyDev, vmDef, w⟩
      else if env.unlockptOk = false then ⟨-1, ttyDev, vmDef, w⟩
      else
        match env.ptsRes with
        | none => ⟨-1, ttyDev, vmDef, w⟩
        | some ptsStr =>
          let vmDef2 :=
            if STRNEQ ptsStr vmDef.tty then { vmDef with tty := ptsStr }
            else vmDef
          if lxcPutTtyInRawMode env < 0 then ⟨-1, ttyDev, vmDef2, w⟩
          else ⟨0, ttyDev, vmDef2, w⟩
  else ⟨0, -1, vmDef, w⟩

/-- lxcSetupTtyTunnel: run the body, then the setup_complete cleanup closes
the fd when the call failed and the fd is positive. -/
def lxcSetupTtyTunnel (env : StartEnv) (vmDef : VmDef) (w : World) :
    TtyTunnelOut :=
  let out := lxcSetupTtyTunnelBody env vmDef w
  if out.rc ≠ 0 ∧ out.ttyDev > 0 then
    { out with world := closeFdW out.ttyDev out.world }
  else out

/-- Result of lxcSetupContainerTty. -/
structure ContainerTtyOut where
  rc : Int
  ttymaster : Int
  ttyName : Option String
  world : World
  deriving DecidableEq, Repr

/-- Body of lxcSetupContainerTty up to the cleanup label.  The source's
NULL check after malloc tests the ttyName out-parameter, never the
allocation, so it can never fire in the call from lxcVmStart and the name
copy is modelled as succeeding. -/
def lxcSetupContainerTtyBody (env : StartEnv) (w : World) : ContainerTtyOut :=
  let ttymaster := env.posixOpenptRes
  if ttymaster < 0 then ⟨-1, ttymaster, none, w⟩
  else
    let w := openFdW ttymaster w
    if env.containerUnlockOk = false then ⟨-1, ttymaster, none, w⟩
    else if env.ptsnameROk = false then ⟨-1, ttymaster, none, w⟩
    else ⟨0, ttymaster, some env.containerPtsName, w⟩

/-- lxcSetupContainerTty: run the body, then the cleanup closes the master
fd when the call failed and the fd is not −1. -/
def lxcSetupContainerTty (env : StartEnv) (w : World) : ContainerTtyOut :=
  let out := lxcSetupContainerTtyBody env w
  if out.rc ≠ 0 ∧ out.ttymaster ≠ -1 then
    { out with world := closeFdW out.ttymaster out.world }
  else out

/-- The fd-registration prologue of lxcTtyForward together with its early
return: the monitored fds, and whether control reaches the poll loop.
The source returns before the loop only when zero fds are non-negative. -/
structure ForwardSetup where
  fds : List Int
  entersLoop : Bool
  deriving DecidableEq, Repr

/-- lxcTtyForward, lines 605-629: register fd1 then fd2 when non-negative;
with zero registered fds return at once, otherwise enter the poll loop
(and, per line 655, write the byte onward only when more than one fd is
registered). -/
def lxcTtyForwardSetup (fd1 fd2 : Int) : ForwardSetup :=
  let fds :=
    (if 0 ≤ fd1 then [fd1] else []) ++ (if 0 ≤ fd2 then [fd2] else [])
  if fds.length = 0 then ⟨fds, false⟩ else ⟨fds, true⟩

/-- Result of lxcStartContainer: rc and the record (whose definition id the
call assigns from clone's return value). -/
structure StartContainerOut where
  rc : Int
  vm : Vm
  deriving DecidableEq, Repr

/-- lxcStartContainer: allocate the child stack, clone the container entry,
store the returned pid as the definition id; persisting the configuration
is a disk-only collaborator call with no in-memory effect. -/
def lxcStartContainer (env : StartEnv) (vm : Vm) : StartContainerOut :=
  if env.stackMallocOk = false then ⟨-1, vm⟩
  else
    let vm2 := { vm with vmDef := { vm.vmDef with id := env.cloneRes } }
    if vm2.vmDef.id < 0 then ⟨-1, vm2⟩
    else ⟨0, vm2⟩

/-- Result of lxcVmStart.  forwarderSpawned records whether the fork
succeeded, i.e. whether the tty-forwarding side-car process came into
being (its own execution happens in the child, outside this state). -/
structure VmStartOut where
  rc : Int
  vm : Vm
  driver : Driver
  world : World
  forwarderSpawned : Bool
  deriving DecidableEq, Repr

/-- lxcVmStart: parent tty tunnel, container tty pair, fork of the
forwarder, close of the parent's fd copies, then the namespace spawner;
on full success mark RUNNING and move the counters. -/
def lxcVmStart (env : StartEnv) (driver : Driver) (vm : Vm) (w : World) :
    VmStartOut :=
  let t := lxcSetupTtyTunnel env vm.vmDef w
  let vm1 := { vm with vmDef := t.vmDef, parentTty := t.ttyDev }
  if t.rc < 0 then ⟨-1, vm1, driver, t.world, false⟩
  else
    let c := lxcSetupContainerTty env t.world
    let vm2 :=
      { vm1 with
        containerTtyFd := c.ttymaster,
        containerTty :=
          match c.ttyName with
          | some s => some s
          | none => vm1.containerTty }
    if c.rc < 0 then ⟨-1, vm2, driver, c.world, false⟩
    else
      let vm3 := { vm2 with pid := env.forkRes }
      if env.forkRes < 0 then ⟨-1, vm3, driver, c.world, false⟩
      else
        let w2 := closeFdW vm3.containerTtyFd (closeFdW vm3.parentTty c.world)
        let s := lxcStartContainer env vm3
        if s.rc = 0 then
          ⟨0, { s.vm with state := VmState.running },
            { driver with
              ninactivevms := driver.ninactivevms - 1,
              nactivevms := driver.nactivevms + 1 },
            w2, true⟩
        else ⟨s.rc, s.vm, driver, w2, true⟩

/-! ### Termination: lxcDomainShutdown (814-841), lxcDomainDestroy (851-920) -/

/-- Outcome of a kill() call: delivered, failed with ESRCH (no such
process), or failed with some other errno. -/
inductive KillRes where
  | ok
  | esrch
  | errOther
  deriving DecidableEq, Repr

/-- Error kinds the two termination operations raise. -/
inductive ErrKind where
  | invalidDomain
  | internalErr
  deriving DecidableEq, Repr

def SIGINT : Int := 2
def SIGKILL : Int := 9

/-- Environment for lxcDomainShutdown: the kill outcome. -/
structure ShutdownEnv where
  kill : KillRes
  deriving DecidableEq, Repr

/-- Result of lxcDomainShutdown: rc, the registry after the call, the
errors raised, the signals sent as (pid, signal) pairs, and the pids
waited on (always none: shutdown does not wait). -/
structure ShutdownOut where
  rc : Int
  driver : Driver
  errs : List ErrKind
  kills : List (Int × Int)
  waits : List Int
  deriving DecidableEq, Repr

/-- Set the record's state to VIR_DOMAIN_SHUTDOWN. -/
def markShutdown (vm : Vm) : Vm := { vm with state := VmState.shutdown }

/-- lxcDomainShutdown: locate the record by the handle's runtime id; send
SIGINT to the container init; a missing target (ESRCH) is not an error;
set the state and return without waiting. -/
def lxcDomainShutdown (env : ShutdownEnv) (driver : Driver) (domId : Int) :
    ShutdownOut :=
  match lxcFindVMByID driver domId with
  | none => ⟨-1, driver, [ErrKind.invalidDomain], [], []⟩
  | some vm =>
    if env.kill = KillRes.errOther then
      ⟨-1, driver, [ErrKind.internalErr], [(vm.vmDef.id, SIGINT)], []⟩
    else
      ⟨0,
        { driver with
          vms := updateFirst (vmHasRuntimeId domId) markShutdown driver.vms },
        [], [(vm.vmDef.id, SIGINT)], []⟩

/-- Environment for lxcDomainDestroy: the outcomes of its two kills and,
for each waitpid loop, the final return value once EINTR restarts are
exhausted. -/
structure DestroyEnv where
  killContainer : KillRes
  waitContainerRes : Int
  killTty : KillRes
  waitTtyRes : Int
  deriving DecidableEq, Repr

/-- Result of lxcDomainDestroy, shaped like ShutdownOut. -/
structure DestroyOut where
  rc : Int
  driver : Driver
  errs : List ErrKind
  kills : List (Int × Int)
  waits : List Int
  deriving DecidableEq, Repr

/-- The terminal bookkeeping applied at the tty_error_out label: state
SHUT_OFF, forwarder pid and definition id cleared. -/
def destroyConverge (vm : Vm) : Vm :=
  { vm with
    state := VmState.shutoff,
    pid := -1,
    vmDef := { vm.vmDef with id := -1 } }

/-- lxcDomainDestroy: locate by the handle's runtime id; SIGKILL the
container init (ESRCH tolerated, any other failure aborts); wait for it
(a mismatched wait result only logs an error); SIGKILL the forwarder
(ESRCH tolerated; any other failure skips the second wait); wait for the
forwarder likewise; then converge the record and the counters and return 0.
The transient SHUTDOWN state assigned between the first kill and the waits
is overwritten by the convergence before the record is next observable, so
only the final state appears here. -/
def lxcDomainDestroy (env : DestroyEnv) (driver : Driver) (domId : Int) :
    DestroyOut :=
  match lxcFindVMByID driver domId with
  | none => ⟨-1, driver, [ErrKind.invalidDomain], [], []⟩
  | some vm =>
    if env.killContainer = KillRes.errOther then
      ⟨-1, driver, [ErrKind.internalErr], [(vm.vmDef.id, SIGKILL)], []⟩
    else
      let waitErrs : List ErrKind :=
        if env.waitContainerRes ≠ vm.vmDef.id then [ErrKind.internalErr]
        else []
      let driver2 : Driver :=
        { driver with
          vms := updateFirst (vmHasRuntimeId domId) destroyConverge driver.vms,
          nactivevms := driver.nactivevms - 1,
          ninactivevms := driver.ninactivevms + 1 }
      if env.killTty = KillRes.errOther then
        ⟨0, driver2, waitErrs ++ [ErrKind.internalErr],
          [(vm.vmDef.id, SIGKILL), (vm.pid, SIGKILL)], [vm.vmDef.id]⟩
      else
        ⟨0, driver2,
          waitErrs ++
            (if env.waitTtyRes ≠ vm.pid then [ErrKind.internalErr] else []),
          [(vm.vmDef.id, SIGKILL), (vm.pid, SIGKILL)],
          [vm.vmDef.id, vm.pid]⟩

/-! ### Concrete fixtures used by counterexamples and witnesses -/

/-- A URI with the lxc scheme. -/
def uriLxc : Uri := ⟨some "lxc"⟩

/-- Startup environment of scenario: root caller, allocation fine, probing
clone fails with EINVAL. -/
def envCapFail : StartupEnv :=
  ⟨0, true, true, CloneProbeRes.einval, true, true, emptyDriver⟩

/-- An empty fd state. -/
def w0 : World := ⟨[]⟩

/-- A defined, never-started record with a preset tty path. -/
def vmWithTty : Vm :=
  { vmDef := { name := "c1", tty := "/dev/ptmx", id := -1 },
    state := VmState.shutoff, parentTty := -1, containerTtyFd := -1,
    containerTty := none, pid := -1 }

/-- A defined, never-started record with an empty tty path. -/
def vmNoTty : Vm :=
  { vmDef := { name := "c2", tty := "", id := -1 },
    state := VmState.shutoff, parentTty := -1, containerTtyFd := -1,
    containerTty := none, pid := -1 }

/-- A running record: container init pid 5, forwarder pid 7. -/
def vmRunning : Vm :=
  { vmDef := { name := "c3", tty := "/dev/pts/2", id := 5 },
    state := VmState.running, parentTty := 3, containerTtyFd := 4,
    containerTty := some "/dev/pts/7", pid := 7 }

/-- A record observed mid-shutdown: state SHUTTING_DOWN, still active. -/
def vmShuttingDown : Vm :=
  { vmDef := { name := "c4", tty := "", id := 5 },
    state := VmState.shutdown, parentTty := 3, containerTtyFd := 4,
    containerTty := none, pid := 7 }

/-- Registry holding only the never-started record. -/
def driverInactive : Driver := ⟨[vmWithTty], 0, 1⟩

/-- Registry holding only the empty-tty record. -/
def driverNoTty : Driver := ⟨[vmNoTty], 0, 1⟩

/-- Registry holding only the running record. -/
def driverRunning : Driver := ⟨[vmRunning], 1, 0⟩

/-- Registry holding a record already destroyed (SHUT_OFF, id −1). -/
def vmOff : Vm :=
  { vmDef := { name := "c5", tty := "", id := -1 },
    state := VmState.shutoff, parentTty := -1, containerTtyFd := -1,
    containerTty := none, pid := -1 }

/-- Registry holding only the SHUT_OFF record. -/
def driverOff : Driver := ⟨[vmOff], 0, 1⟩

/-- Start environment in which both pty setups succeed and fork fails. -/
def envForkFail : StartEnv :=
  { ptyOpenRes := 10, grantptOk := true, unlockptOk := true,
    ptsRes := some "/dev/pts/3", rawModeOk := true, posixOpenptRes := 11,
    containerUnlockOk := true, ptsnameROk := true,
    containerPtsName := "/dev/pts/4", forkRes := -1, stackMallocOk := true,
    cloneRes := 99 }

/-- Start environment in which every syscall succeeds. -/
def envStartOk : StartEnv :=
  { ptyOpenRes := 10, grantptOk := true, unlockptOk := true,
    ptsRes := some "/dev/pts/3", rawModeOk := true, posixOpenptRes := 11,
    containerUnlockOk := true, ptsnameROk := true,
    containerPtsName := "/dev/pts/4", forkRes := 101, stackMallocOk := true,
    cloneRes := 202 }

/-- Destroy environment in which every syscall succeeds as destroy expects
for the running fixture. -/
def destroyEnvOk : DestroyEnv := ⟨KillRes.ok, 5, KillRes.ok, 7⟩

/-- Destroy environment in which the first kill fails with an errno other
than ESRCH (for example EPERM). -/
def destroyEnvKillFail : DestroyEnv := ⟨KillRes.errOther, 5, KillRes.ok, 7⟩

/-- Destroy environment in which both waits report the wrong pid. -/
def destroyEnvWaitsFail : DestroyEnv := ⟨KillRes.ok, -1, KillRes.ok, -1⟩

/-! ### Shared helper lemmas -/

/-- No record can be found by runtime id −1: the lookup searches active
records only, and active means the id is not −1. -/
theorem findVMByID_neg_one (driver : Driver) :
    lxcFindVMByID driver (-1) = none := by
  rw [lxcFindVMByID, List.find?_eq_none]
  intro vm _
  simp [vmHasRuntimeId, lxcIsActiveVM]

/-- The record produced from the first match is a member of the updated
list. -/
theorem find_updateFirst_mem {p : Vm → Bool} {f : Vm → Vm} :
    ∀ {l : List Vm} {vm : Vm}, l.find? p = some vm → f vm ∈ updateFirst p f l := by
  intro l
  induction l with
  | nil => intro vm h; simp at h
  | cons x xs ih =>
    intro vm h
    by_cases hp : p x
    · rw [List.find?_cons_of_pos _ hp] at h
      cases h
      simp [updateFirst, hp]
    · rw [List.find?_cons_of_neg _ hp] at h
      simp only [updateFirst, hp, if_neg]
      exact List.mem_cons_of_mem x (ih h)

/-- updateFirst leaves the length unchanged. -/
theorem updateFirst_length (p : Vm → Bool) (f : Vm → Vm) :
    ∀ l : List Vm, (updateFirst p f l).length = l.length := by
  intro l
  induction l with
  | nil => rfl
  | cons x xs ih =>
    by_cases hp : p x <;> simp [updateFirst, hp, ih]

/-- With an empty tty path the tunnel setup succeeds at once and writes −1
through the out-parameter. -/
theorem setupTtyTunnel_empty (env : StartEnv) (vmDef : VmDef) (w : World)
    (h : vmDef.tty = "") :
    lxcSetupTtyTunnel env vmDef w = ⟨0, -1, vmDef, w⟩ := by
  simp [lxcSetupTtyTunnel, lxcSetupTtyTunnelBody, h]

/-- When its three syscalls succeed, the container tty setup returns the
fresh master fd and registers it as open. -/
theorem setupContainerTty_ok (env : StartEnv) (w : World)
    (h1 : 0 ≤ env.posixOpenptRes) (h2 : env.containerUnlockOk = true)
    (h3 : env.ptsnameROk = true) :
    lxcSetupContainerTty env w =
      ⟨0, env.posixOpenptRes, some env.containerPtsName,
        openFdW env.posixOpenptRes w⟩ := by
  have h4 : ¬ env.posixOpenptRes < 0 := not_lt.mpr h1
  simp [lxcSetupContainerTty, lxcSetupContainerTtyBody, h4, h2, h3]

/-- The loop of lxcListDomains lists the ids of active records, truncated
at the capacity. -/
theorem listDomainsLoop_eq :
    ∀ (vms : List Vm) (n : Nat),
      lxcListDomainsLoop vms n =
        ((vms.filter lxcIsActiveVM).map (fun vm => vm.vmDef.id)).take n := by
  intro vms
  induction vms with
  | nil => intro n; simp [lxcListDomainsLoop]
  | cons vm rest ih =>
    intro n
    cases n with
    | zero => simp [lxcListDomainsLoop]
    | succ m =>
      by_cases h : lxcIsActiveVM vm
      · simp [lxcListDomainsLoop, h, List.filter_cons, ih]
      · simp [lxcListDomainsLoop, h, List.filter_cons, ih]

/-! ### Claim theorems -/

/-- C1 (code behaviour at the failing input): when the capability probe's
clone fails with EINVAL, startup does return −1, but the Driver singleton
remains installed (the source skips the cleanup its later failure paths
perform), and a subsequent open by root with scheme lxc succeeds instead
of being declined. -/
theorem c1_startup_capfail_singleton_survives :
    (lxcStartup envCapFail).1 = -1 ∧
    (lxcStartup envCapFail).2 = some emptyDriver ∧
    lxcOpen 0 (lxcStartup envCapFail).2.isSome (some uriLxc) =
      OpenStatus.success := by
  decide

/-- C2: calling destroy on a record already in SHUT_OFF (runtime id −1) is
a bookkeeping no-op: the lookup by runtime id misses, the registry (records
and both counters) is returned unchanged, and the call reports an
invalid-domain error. -/
theorem c2_destroy_on_shutoff_noop (env : DestroyEnv) (driver : Driver)
    (vm : Vm) (_hmem : vm ∈ driver.vms) (_hstate : vm.state = VmState.shutoff)
    (hid : vm.vmDef.id = -1) :
    (lxcDomainDestroy env driver vm.vmDef.id).driver = driver ∧
    (lxcDomainDestroy env driver vm.vmDef.id).rc = -1 ∧
    (lxcDomainDestroy env driver vm.vmDef.id).errs = [ErrKind.invalidDomain] := by
  rw [hid]
  simp [lxcDomainDestroy, findVMByID_neg_one driver]

/-- Witness for C2 at the SHUT_OFF fixture. -/
theorem c2_destroy_on_shutoff_noop_witness :
    (lxcDomainDestroy destroyEnvOk driverOff vmOff.vmDef.id).driver =
      driverOff ∧
    (lxcDomainDestroy destroyEnvOk driverOff vmOff.vmDef.id).rc = -1 ∧
    (lxcDomainDestroy destroyEnvOk driverOff vmOff.vmDef.id).errs =
      [ErrKind.invalidDomain] :=
  c2_destroy_on_shutoff_noop destroyEnvOk driverOff vmOff (by decide)
    (by decide) (by decide)

/-- C3 (code behaviour at the failing input): with both pty setups
succeeding (fds 10 and 11) and the forwarder fork failing, start returns
−1 with the record still OFF, but both pty file descriptors are left open —
the source's cleanup path never closes them. -/
theorem c3_forkfail_leaves_ptys_open :
    (lxcVmStart envForkFail driverInactive vmWithTty w0).rc = -1 ∧
    (lxcVmStart envForkFail driverInactive vmWithTty w0).vm.parentTty = 10 ∧
    (lxcVmStart envForkFail driverInactive vmWithTty w0).vm.containerTtyFd = 11 ∧
    (lxcVmStart envForkFail driverInactive vmWithTty w0).world.openFds =
      [11, 10] ∧
    (lxcVmStart envForkFail driverInactive vmWithTty w0).vm.state =
      VmState.shutoff := by
  decide

/-- C4 counterexample: with an empty tty path the master fd is indeed left
at −1, but the forwarder process is still spawned (the fork is
unconditional), and the forward routine entered with a single
non-negative fd does not return early — it enters its poll loop. -/
theorem c4_counterexample_forwarder_spawned :
    vmNoTty.vmDef.tty = "" ∧
    (lxcVmStart envStartOk driverNoTty vmNoTty w0).vm.parentTty = -1 ∧
    (lxcVmStart envStartOk driverNoTty vmNoTty w0).forwarderSpawned = true ∧
    (lxcTtyForwardSetup (-1) 11).fds.length = 1 ∧
    (lxcTtyForwardSetup (-1) 11).entersLoop = true := by
  decide

/-- C4 amended: with an empty tty path the host-side master fd is left
unset (−1); the forwarder is nevertheless spawned whenever the
container-side pty setup and the fork succeed; and the forward routine
returns before its loop exactly when both fds are negative — with one fd
it still runs. -/
theorem c4_amended_empty_tty :
    (∀ (env : StartEnv) (driver : Driver) (vm : Vm) (w : World),
      vm.vmDef.tty = "" →
        (lxcVmStart env driver vm w).vm.parentTty = -1) ∧
    (∀ (env : StartEnv) (driver : Driver) (vm : Vm) (w : World),
      vm.vmDef.tty = "" → 0 ≤ env.posixOpenptRes →
      env.containerUnlockOk = true → env.ptsnameROk = true →
      0 ≤ env.forkRes →
        (lxcVmStart env driver vm w).forwarderSpawned = true) ∧
    (∀ fd1 fd2 : Int,
      (lxcTtyForwardSetup fd1 fd2).entersLoop = true ↔ (0 ≤ fd1 ∨ 0 ≤ fd2)) := by
  refine ⟨?_, ?_, ?_⟩
  · intro env driver vm w h
    simp only [lxcVmStart, setupTtyTunnel_empty env vm.vmDef w h]
    norm_num
    split_ifs <;> simp [lxcStartContainer] <;> split_ifs <;> simp
  · intro env driver vm w h h1 h2 h3 h4
    have h5 : ¬ env.forkRes < 0 := not_lt.mpr h4
    simp only [lxcVmStart, setupTtyTunnel_empty env vm.vmDef w h,
      setupContainerTty_ok env w h1 h2 h3]
    norm_num
    simp [h5, lxcStartContainer]
    split_ifs <;> simp
  · intro fd1 fd2
    by_cases h1 : 0 ≤ fd1 <;> by_cases h2 : 0 ≤ fd2 <;>
      simp [lxcTtyForwardSetup, h1, h2]

/-- Witness for C4's amended statement at the empty-tty fixture. -/
theorem c4_amended_empty_tty_witness :
    (lxcVmStart envStartOk driverNoTty vmNoTty w0).forwarderSpawned = true :=
  c4_amended_empty_tty.2.1 envStartOk driverNoTty vmNoTty w0 rfl (by decide)
    rfl rfl (by decide)

/-- C5 counterexample: when the initial SIGKILL of the container init fails
with an errno other than ESRCH, destroy on a running domain returns −1
without any convergence: the record is still RUNNING and the registry is
unchanged. -/
theorem c5_counterexample_killfail_no_convergence :
    (lxcDomainDestroy destroyEnvKillFail driverRunning 5).rc = -1 ∧
    (lxcDomainDestroy destroyEnvKillFail driverRunning 5).driver =
      driverRunning ∧
    vmRunning ∈ driverRunning.vms ∧
    vmRunning.state = VmState.running ∧
    vmRunning.state ≠ VmState.shutoff := by
  decide

/-- C5 amended: provided the initial kill of the container init succeeds or
fails with ESRCH, whenever destroy returns after being called on a domain
its lookup finds, the record has converged — state SHUT_OFF, forwarder pid
−1, definition id −1, hence inactive — and the counters moved one record
from active to inactive, even when the wait calls or the forwarder kill
report errors. -/
theorem c5_amended_destroy_converges (env : DestroyEnv) (driver : Driver)
    (domId : Int) (vm : Vm)
    (hf : lxcFindVMByID driver domId = some vm)
    (hk : env.killContainer ≠ KillRes.errOther) :
    (lxcDomainDestroy env driver domId).rc = 0 ∧
    (lxcDomainDestroy env driver domId).driver.vms =
      updateFirst (vmHasRuntimeId domId) destroyConverge driver.vms ∧
    (lxcDomainDestroy env driver domId).driver.nactivevms =
      driver.nactivevms - 1 ∧
    (lxcDomainDestroy env driver domId).driver.ninactivevms =
      driver.ninactivevms + 1 ∧
    destroyConverge vm ∈ (lxcDomainDestroy env driver domId).driver.vms ∧
    (destroyConverge vm).state = VmState.shutoff ∧
    (destroyConverge vm).pid = -1 ∧
    (destroyConverge vm).vmDef.id = -1 ∧
    lxcIsActiveVM (destroyConverge vm) = false := by
  have hmem :
      destroyConverge vm ∈
        updateFirst (vmHasRuntimeId domId) destroyConverge driver.vms :=
    find_updateFirst_mem hf
  simp only [destroyConverge] at hmem
  by_cases ht : env.killTty = KillRes.errOther <;>
    simp [lxcDomainDestroy, hf, hk, ht, hmem, destroyConverge, lxcIsActiveVM]

/-- Witness for C5's amended statement: both waits report the wrong pid,
yet destroy converges. -/
theorem c5_amended_destroy_converges_witness :
    (lxcDomainDestroy destroyEnvWaitsFail driverRunning 5).rc = 0 ∧
    destroyConverge vmRunning ∈
      (lxcDomainDestroy destroyEnvWaitsFail driverRunning 5).driver.vms :=
  ⟨(c5_amended_destroy_converges destroyEnvWaitsFail driverRunning 5
      vmRunning (by decide) (by decide)).1,
    (c5_amended_destroy_converges destroyEnvWaitsFail driverRunning 5
      vmRunning (by decide) (by decide)).2.2.2.2.1⟩

/-- C6: shutdown on a domain its lookup finds sends SIGINT to the
definition's runtime id, tolerates ESRCH (a missing target is success),
raises no error, sets the record's state to SHUTTING_DOWN, leaves both
counters unchanged and performs no wait. -/
theorem c6_shutdown_soft (env : ShutdownEnv) (driver : Driver) (domId : Int)
    (vm : Vm) (hf : lxcFindVMByID driver domId = some vm)
    (hk : env.kill ≠ KillRes.errOther) :
    (lxcDomainShutdown env driver domId).rc = 0 ∧
    (lxcDomainShutdown env driver domId).kills = [(vm.vmDef.id, SIGINT)] ∧
    (lxcDomainShutdown env driver domId).waits = [] ∧
    (lxcDomainShutdown env driver domId).errs = [] ∧
    (lxcDomainShutdown env driver domId).driver.vms =
      updateFirst (vmHasRuntimeId domId) markShutdown driver.vms ∧
    markShutdown vm ∈ (lxcDomainShutdown env driver domId).driver.vms ∧
    (markShutdown vm).state = VmState.shutdown ∧
    (lxcDomainShutdown env driver domId).driver.nactivevms =
      driver.nactivevms ∧
    (lxcDomainShutdown env driver domId).driver.ninactivevms =
      driver.ninactivevms := by
  have hmem :
      markShutdown vm ∈
        updateFirst (vmHasRuntimeId domId) markShutdown driver.vms :=
    find_updateFirst_mem hf
  simp only [markShutdown] at hmem
  simp only [lxcDomainShutdown, hf]
  simp [hk, hmem, markShutdown]

/-- Witness for C6 with the target process already gone (ESRCH). -/
theorem c6_shutdown_soft_witness :
    (lxcDomainShutdown ⟨KillRes.esrch⟩ driverRunning 5).rc = 0 ∧
    (lxcDomainShutdown ⟨KillRes.esrch⟩ driverRunning 5).waits = [] :=
  ⟨(c6_shutdown_soft ⟨KillRes.esrch⟩ driverRunning 5 vmRunning (by decide)
      (by decide)).1,
    (c6_shutdown_soft ⟨KillRes.esrch⟩ driverRunning 5 vmRunning (by decide)
      (by decide)).2.2.1⟩

/-- C7: open accepts exactly when the caller's uid is 0, the Driver
singleton exists, and the URI carries scheme "lxc"; in every other case the
outcome is the distinct declined status, never an error. -/
theorem c7_open_iff_root_driver_scheme :
    ∀ (uid : Nat) (driverExists : Bool) (uri : Option Uri),
      (lxcOpen uid driverExists uri = OpenStatus.success ↔
        (uid = 0 ∧ driverExists = true ∧
          ∃ u, uri = some u ∧ u.scheme = some "lxc")) ∧
      lxcOpen uid driverExists uri ≠ OpenStatus.error := by
  intro uid driverExists uri
  by_cases hu : uid = 0
  · cases driverExists with
    | false => simp [lxcOpen, hu]
    | true =>
      rcases uri with _ | u
      · simp [lxcOpen, hu]
      · rcases hs : u.scheme with _ | s
        · simp [lxcOpen, hu, hs]
        · by_cases hstr : s = "lxc"
          · subst hstr
            simp [lxcOpen, hu, hs, STRNEQ]
          · simp [lxcOpen, hu, hs, STRNEQ, hstr]
  · simp [lxcOpen, hu]

/-- Witness for C7: root caller, existing singleton, lxc scheme. -/
theorem c7_open_witness :
    lxcOpen 0 true (some uriLxc) = OpenStatus.success :=
  ((c7_open_iff_root_driver_scheme 0 true (some uriLxc)).1).mpr
    ⟨rfl, rfl, uriLxc, rfl, rfl⟩

/-- C8 counterexample: a record in SHUTTING_DOWN still has a runtime id, so
the listing includes it; the spec's reading (only state RUNNING) would
exclude it. -/
theorem c8_counterexample_shutting_down_listed :
    lxcListDomains ⟨[vmShuttingDown], 1, 0⟩ 1 = [5] ∧
    specListRunningIds [vmShuttingDown] 1 = [] ∧
    vmShuttingDown.state ≠ VmState.running := by
  decide

/-- C8 amended: the listing returns the ids of active records (runtime id
not −1, i.e. RUNNING or SHUTTING_DOWN) in registry order, truncated at the
capacity, and whenever the capacity does not exceed the number of active
records exactly that many entries come back. -/
theorem c8_amended_list_active_ids :
    ∀ (driver : Driver) (n : Nat),
      lxcListDomains driver n =
        ((driver.vms.filter lxcIsActiveVM).map (fun vm => vm.vmDef.id)).take n ∧
      (n ≤ (driver.vms.filter lxcIsActiveVM).length →
        (lxcListDomains driver n).length = n) := by
  intro driver n
  constructor
  · exact listDomainsLoop_eq driver.vms n
  · intro h
    have he := listDomainsLoop_eq driver.vms n
    rw [lxcListDomains, he, List.length_take, List.length_map]
    exact Nat.min_eq_left h

/-- Witness for C8's amended statement: one active record, capacity one. -/
theorem c8_amended_list_active_ids_witness :
    (lxcListDomains driverRunning 1).length = 1 :=
  (c8_amended_list_active_ids driverRunning 1).2 (by decide)

/-- C9: for a handle whose runtime id is −1 (a domain that is not running),
both shutdown and destroy miss in the lookup, report an invalid-domain
error, send no signal, wait on nothing, and return the registry unchanged. -/
theorem c9_inactive_handle_rejected :
    ∀ (senv : ShutdownEnv) (denv : DestroyEnv) (driver : Driver),
      lxcDomainShutdown senv driver (-1) =
        ⟨-1, driver, [ErrKind.invalidDomain], [], []⟩ ∧
      lxcDomainDestroy denv driver (-1) =
        ⟨-1, driver, [ErrKind.invalidDomain], [], []⟩ := by
  intro senv denv driver
  constructor <;>
    simp [lxcDomainShutdown, lxcDomainDestroy, findVMByID_neg_one driver]

/-- C10: when the child-stack allocation fails, the capability check
reports the kernel unsupported without ever invoking the clone primitive —
for every clone outcome, including a kernel that would accept the flags —
and consequently probe returns no URI. -/
theorem c10_stackfail_reports_unsupported :
    ∀ cloneRes : CloneProbeRes,
      lxcCheckContainerSupport false cloneRes = ⟨-1, false⟩ ∧
      lxcProbe false cloneRes = none := by
  intro cloneRes
  constructor <;> rfl

end Lxc
